import Mathlib

/-!
Verification of the Little Lemon ordering backend (`LittleLemonAPI`):
a shallow embedding of the cart, order-lifecycle and authorization logic of
`views.py` and `permissions.py`, with theorems about the embedded operations.

Conventions of the embedding:
  - The persisted entity set (Django ORM tables) is the `DB` structure; each
    operation is a pure function from a `DB` (plus request data) to a
    response paired with the successor `DB`.
  - Decimal prices are embedded as exact rationals (`Rat`); Django `Decimal`
    arithmetic on them (sum, product with an integer quantity) is exact, so
    this is faithful.
  - Auto-increment primary keys are embedded as explicit counters in `DB`.
  - JSON request fields are embedded as `Option` values: `none` is an absent
    key, `some n` an integer value (the integral payloads the API consumes).
  - Python truthiness of an optional integer (`if delivery_crew_id:`) is the
    `truthyId` function: absent or zero is falsy.
-/

namespace LittleLemon

/-- A Django auth user: id, username, the `is_staff` admin flag, the
`is_authenticated` flag (false exactly for `AnonymousUser`), and the list of
group names the user belongs to. -/
structure User where
  id : Nat
  username : String
  is_staff : Bool
  is_authenticated : Bool
  groups : List String
deriving DecidableEq, Repr

/-- `models.MenuItem`: id, title and current price. -/
structure MenuItem where
  id : Nat
  title : String
  price : Rat
deriving DecidableEq, Repr

/-- `models.Cart`: one cart line owned by `user`, referencing a menu item,
with quantity, snapshotted unit price and line price. -/
structure CartLine where
  id : Nat
  user : Nat
  menuitem : Nat
  quantity : Int
  unit_price : Rat
  price : Rat
deriving DecidableEq, Repr

/-- `models.Order`: owning user, optional delivery-crew user, two-valued
status flag, total and creation date (a day ordinal).

Modelled from the spec: `models.py` is not part of the provided sources; the
field defaults used at creation (`delivery_crew` absent, `status` false) are
taken from spec section 3 ("optional delivery-crew reference ... initially
absent", "status (boolean: false = out for delivery/pending)"). -/
structure Order where
  id : Nat
  user : Nat
  delivery_crew : Option Nat
  status : Bool
  total : Rat
  date : Nat
deriving DecidableEq, Repr

/-- `models.OrderItem`: child of an order, copying the menu item of a cart line,
quantity, unit price and line price. -/
structure OrderItem where
  id : Nat
  order : Nat
  menuitem : Nat
  quantity : Int
  unit_price : Rat
  price : Rat
deriving DecidableEq, Repr

/-- The persisted entity set, together with the auto-increment counters. -/
structure DB where
  users : List User
  menuItems : List MenuItem
  carts : List CartLine
  orders : List Order
  orderItems : List OrderItem
  nextCartId : Nat
  nextOrderId : Nat
  nextOrderItemId : Nat
deriving DecidableEq, Repr

/-- An HTTP response: status code and detail message. Serialized entity
payloads are stated separately where a claim needs them. -/
structure Resp where
  code : Nat
  detail : String
deriving DecidableEq, Repr

/-- `user.groups.filter(name="Manager").exists()`. -/
def isManager (u : User) : Bool :=
  u.groups.contains "Manager"

/-- `user.groups.filter(name="Delivery crew").exists()`. -/
def isDeliveryCrewMember (u : User) : Bool :=
  u.groups.contains "Delivery crew"

/-- `MenuItem.objects.get(id=i)`, as an `Option`. -/
def findMenuItem (db : DB) (i : Nat) : Option MenuItem :=
  db.menuItems.find? (fun m => m.id == i)

/-- `User.objects.get(id=i)`, as an `Option`. -/
def findUser (db : DB) (i : Nat) : Option User :=
  db.users.find? (fun u => u.id == i)

/-- `Order.objects.get(pk=pk)`, as an `Option`. -/
def findOrder (db : DB) (pk : Nat) : Option Order :=
  db.orders.find? (fun o => o.id == pk)

/-- `Cart.objects.filter(user=u)`: the cart lines owned by user id `u`. -/
def userCart (db : DB) (u : Nat) : List CartLine :=
  db.carts.filter (fun c => c.user == u)

/-- `order.save()`: write back the row whose primary key is `o.id`. -/
def updateOrderIn (db : DB) (o : Order) : DB :=
  { db with orders := db.orders.map (fun x => if x.id == o.id then o else x) }

/-! ## Authorization: `permissions.py` and the `get_permissions` tables -/

/-- The permission classes appearing in `permissions.py` and the DRF
built-in `permissions.IsAuthenticated`. -/
inductive Perm where
  | isAuthenticatedP
  | isCustomerP
  | isDeliveryCrewP
  | isManagerP
  | isAdminOrManagerP
deriving DecidableEq, Repr

/-- `has_permission` of each permission class, evaluated on the request
user. `IsCustomer` is `not request.user.groups.exists()`;
`IsAdminOrManager` is `request.user.is_staff or` Manager-group membership. -/
def permCheck : Perm → User → Bool
  | .isAuthenticatedP, u => u.is_authenticated
  | .isCustomerP, u => u.groups.isEmpty
  | .isDeliveryCrewP, u => isDeliveryCrewMember u
  | .isManagerP, u => isManager u
  | .isAdminOrManagerP, u => u.is_staff || isManager u

/-- DRF grants the request iff every permission listed by the view grants
it; an empty list grants every caller. -/
def allowed (ps : List Perm) (u : User) : Bool :=
  ps.all (fun p => permCheck p u)

/-- The HTTP methods the viewsets dispatch on. -/
inductive Method where
  | get
  | post
  | put
  | patch
  | delete
deriving DecidableEq, Repr

/-- `CategoryViewSet.permission_classes`. -/
def categoryPermissions : List Perm :=
  [.isAdminOrManagerP]

/-- `MenuItemViewSet.get_permissions`: writes require `IsAdminOrManager`,
reads return an empty permission list. -/
def menuItemPermissions (m : Method) : List Perm :=
  if m = .post ∨ m = .put ∨ m = .patch ∨ m = .delete then [.isAdminOrManagerP]
  else []

/-- `CartViewSet.permission_classes`. -/
def cartPermissions : List Perm :=
  [.isAuthenticatedP, .isCustomerP]

/-- `ManagerGroupView` / `DeliveryCrewGroupView` `permission_classes`. -/
def groupRosterPermissions : List Perm :=
  [.isAuthenticatedP, .isAdminOrManagerP]

/-- `OrderViewSet.get_permissions`, branch for branch. The `patch` chain has
no final `else`, so a caller in neither group falls through to the trailing `return [permissions.IsAuthenticated()]`. -/
def orderPermissions (u : User) (m : Method) : List Perm :=
  if m = .put ∨ m = .delete then [.isManagerP]
  else if m = .get then
    if isManager u then [.isAuthenticatedP]
    else if isDeliveryCrewMember u then [.isDeliveryCrewP]
    else [.isCustomerP]
  else if m = .patch then
    if isManager u then [.isAuthenticatedP]
    else if isDeliveryCrewMember u then [.isDeliveryCrewP]
    else [.isAuthenticatedP]
  else if m = .post then
    if isManager u then [.isAuthenticatedP]
    else [.isCustomerP]
  else [.isAuthenticatedP]

/-- The Django `AnonymousUser`: the request user of an unauthenticated caller —
not authenticated, not staff, member of no group. -/
def anonymousUser : User :=
  { id := 0, username := "", is_staff := false, is_authenticated := false, groups := [] }

/-! ## Cart Manager: `CartViewSet` -/

/-- `CartViewSet.create` (add to cart): look up the menu item (404 if
absent), compute `price = quantity * item.price`, create a new `Cart` row
and return it serialized with status 201. -/
def addToCart (db : DB) (userId : Nat) (menuItemId : Nat) (quantity : Int) :
    Resp × Option CartLine × DB :=
  match findMenuItem db menuItemId with
  | none => ({ code := 404, detail := "Menu item not found" }, none, db)
  | some item =>
    let line : CartLine :=
      { id := db.nextCartId, user := userId, menuitem := item.id,
        quantity := quantity, unit_price := item.price,
        price := (quantity : Rat) * item.price }
    ({ code := 201, detail := "" }, some line,
     { db with carts := db.carts ++ [line], nextCartId := db.nextCartId + 1 })

/-- `CartViewSet.destroy` (clear cart): delete every cart line of the
request user and report 200 unconditionally. -/
def clearCart (db : DB) (userId : Nat) : Resp × DB :=
  ({ code := 200, detail := "Cart cleared" },
   { db with carts := db.carts.filter (fun c => c.user != userId) })

/-! ## Order Lifecycle Engine: `OrderViewSet` -/

/-- `Order.objects.filter(...)` per role: `OrderViewSet.get_queryset`. -/
def listOrders (db : DB) (u : User) : List Order :=
  if isManager u then db.orders
  else if isDeliveryCrewMember u then
    db.orders.filter (fun o => o.delivery_crew == some u.id)
  else
    db.orders.filter (fun o => o.user == u.id)

/-- The `for item in cart_items: OrderItem.objects.create(...)` loop:
one `OrderItem` per cart line, copying menu item, quantity, unit price and
line price, with parent `oid` and consecutive ids from `startId`. -/
def mkOrderItems (oid : Nat) (startId : Nat) : List CartLine → List OrderItem
  | [] => []
  | c :: rest =>
    { id := startId, order := oid, menuitem := c.menuitem, quantity := c.quantity,
      unit_price := c.unit_price, price := c.price } :: mkOrderItems oid (startId + 1) rest

/-- `OrderViewSet.create`: 400 on an empty cart; otherwise create one order
with `total = sum(item.price ...)` and the current date, one order item per cart
line, delete the cart lines, and return 201. -/
def createOrder (db : DB) (userId : Nat) (today : Nat) : Resp × DB :=
  let cart := userCart db userId
  if cart.isEmpty then
    ({ code := 400, detail := "Cart is empty" }, db)
  else
    let total := (cart.map CartLine.price).sum
    let order : Order :=
      { id := db.nextOrderId, user := userId, delivery_crew := none,
        status := false, total := total, date := today }
    ({ code := 201, detail := "" },
     { db with
        orders := db.orders ++ [order],
        orderItems := db.orderItems ++ mkOrderItems db.nextOrderId db.nextOrderItemId cart,
        carts := db.carts.filter (fun c => c.user != userId),
        nextOrderId := db.nextOrderId + 1,
        nextOrderItemId := db.nextOrderItemId + cart.length })

/-- The body of a PATCH `/orders/{id}` request: the two fields the handler
reads, each absent or an integer. -/
structure PatchData where
  delivery_crew : Option Nat
  status : Option Int
deriving DecidableEq, Repr

/-- Python truthiness of `request.data.get("delivery_crew")`: an absent key
or the integer 0 is falsy. -/
def truthyId : Option Nat → Bool
  | none => false
  | some n => n != 0

/-- The Manager branch of `OrderViewSet.partial_update`: if `delivery_crew`
is truthy, resolve it to a user (404 if none); set `status` only when the
supplied value is 0 or 1 (`status_value in [0, 1]`), coercing via `bool`;
always save and return 200 on the non-404 path. -/
def managerBranch (db : DB) (order : Order) (p : PatchData) : Resp × DB :=
  let step1 : Option Order :=
    if truthyId p.delivery_crew then
      match findUser db (p.delivery_crew.getD 0) with
      | some u => some { order with delivery_crew := some u.id }
      | none => none
    else
      some order
  match step1 with
  | none => ({ code := 404, detail := "Delivery crew user not found" }, db)
  | some o1 =>
    let o2 :=
      match p.status with
      | some v => if v == 0 || v == 1 then { o1 with status := v != 0 } else o1
      | none => o1
    ({ code := 200, detail := "Order updated" }, updateOrderIn db o2)

/-- The Delivery crew branch of `OrderViewSet.partial_update`: if the
request carries a `status` key, coerce it to bool, save and return 200;
otherwise 403 without saving. -/
def crewBranch (db : DB) (order : Order) (p : PatchData) : Resp × DB :=
  match p.status with
  | some v =>
    ({ code := 200, detail := "Status updated" },
     updateOrderIn db { order with status := v != 0 })
  | none => ({ code := 403, detail := "Only status can be updated" }, db)

/-- `OrderViewSet.partial_update`: look up the order (404 if absent), then
dispatch — Manager group first, Delivery crew group second, 403 otherwise. -/
def patchOrder (db : DB) (caller : User) (pk : Nat) (p : PatchData) : Resp × DB :=
  match findOrder db pk with
  | none => ({ code := 404, detail := "Order not found" }, db)
  | some order =>
    if isManager caller then managerBranch db order p
    else if isDeliveryCrewMember caller then crewBranch db order p
    else ({ code := 403, detail := "Permission denied" }, db)

/-! ## Example data -/

/-- A menu item used to instantiate theorems on concrete data. -/
def mItemA : MenuItem :=
  { id := 1, title := "Pasta", price := 10 }

/-- A cart line of user 1 over `mItemA`. -/
def lineA : CartLine :=
  { id := 1, user := 1, menuitem := 1, quantity := 2, unit_price := 10, price := 20 }

/-- A customer user (no groups). -/
def custA : User :=
  { id := 1, username := "alice", is_staff := false, is_authenticated := true, groups := [] }

/-- A Manager-group user. -/
def mgrA : User :=
  { id := 2, username := "mia", is_staff := false, is_authenticated := true,
    groups := ["Manager"] }

/-- A Delivery crew user. -/
def crewA : User :=
  { id := 3, username := "dan", is_staff := false, is_authenticated := true,
    groups := ["Delivery crew"] }

/-- A user in both the Manager and the Delivery crew groups. -/
def bothA : User :=
  { id := 4, username := "bo", is_staff := false, is_authenticated := true,
    groups := ["Manager", "Delivery crew"] }

/-- An order owned by user 1, assigned to no crew. -/
def orderA : Order :=
  { id := 1, user := 1, delivery_crew := none, status := false, total := 20, date := 5 }

/-- A concrete database: four users, one menu item, one cart line of user 1,
one order. -/
def dbA : DB :=
  { users := [custA, mgrA, crewA, bothA], menuItems := [mItemA], carts := [lineA],
    orders := [orderA], orderItems := [], nextCartId := 2, nextOrderId := 2,
    nextOrderItemId := 1 }

/-- An admin-flagged user belonging to no group. -/
def staffA : User :=
  { id := 5, username := "sam", is_staff := true, is_authenticated := true, groups := [] }

/-- An order owned by user 1 and assigned to delivery-crew user 2. -/
def orderB : Order :=
  { id := 2, user := 1, delivery_crew := some 2, status := false, total := 20, date := 5 }

/-- `dbA` with a second order, assigned to user 2. -/
def dbB : DB :=
  { dbA with orders := [orderA, orderB] }

/-! ## Helper lemmas -/

theorem filter_user_of_filter_ne (l : List CartLine) (u : Nat) :
    (l.filter (fun c => c.user != u)).filter (fun c => c.user == u) = [] := by
  induction l with
  | nil => rfl
  | cons c rest ih =>
    by_cases h : c.user = u <;> simp [List.filter_cons, h, ih]

theorem filter_ne_user_idem (l : List CartLine) (u : Nat) :
    (l.filter (fun c => c.user != u)).filter (fun c => c.user != u) =
      l.filter (fun c => c.user != u) := by
  induction l with
  | nil => rfl
  | cons c rest ih =>
    by_cases h : c.user = u <;> simp [List.filter_cons, h, ih]

theorem filter_user_of_ne (l : List CartLine) (u v : Nat) (h : v ≠ u) :
    (l.filter (fun c => c.user != u)).filter (fun c => c.user == v) =
      l.filter (fun c => c.user == v) := by
  induction l with
  | nil => rfl
  | cons c rest ih =>
    by_cases hv : c.user = v
    · have hu : c.user ≠ u := by rw [hv]; exact h
      simp [List.filter_cons, hv, hu, ih, h]
    · by_cases hu : c.user = u <;> simp [List.filter_cons, hv, hu, ih, h, Ne.symm h]

theorem mkOrderItems_length (oid : Nat) (l : List CartLine) :
    ∀ sid, (mkOrderItems oid sid l).length = l.length := by
  induction l with
  | nil => intro sid; rfl
  | cons c rest ih => intro sid; simp [mkOrderItems, ih]

theorem mkOrderItems_fields (oid : Nat) (l : List CartLine) :
    ∀ sid, (mkOrderItems oid sid l).map
        (fun it => (it.menuitem, it.quantity, it.unit_price, it.price)) =
      l.map (fun c => (c.menuitem, c.quantity, c.unit_price, c.price)) := by
  induction l with
  | nil => intro sid; rfl
  | cons c rest ih => intro sid; simp [mkOrderItems, ih]

theorem mkOrderItems_parent (oid : Nat) (l : List CartLine) :
    ∀ sid, ∀ it ∈ mkOrderItems oid sid l, it.order = oid := by
  induction l with
  | nil => intro sid it h; cases h
  | cons c rest ih =>
    intro sid it h
    rcases List.mem_cons.mp h with h1 | h2
    · rw [h1]
    · exact ih (sid + 1) it h2

theorem list_map_fix (f : Order → Order) :
    ∀ l : List Order, (∀ x ∈ l, f x = x) → l.map f = l
  | [], _ => rfl
  | a :: t, h => by
    rw [List.map_cons, h a (List.mem_cons_self a t),
      list_map_fix f t (fun x hx => h x (List.mem_cons_of_mem a hx))]

theorem map_replace_self (o : Order) :
    ∀ l : List Order, (l.map Order.id).Nodup → o ∈ l →
      l.map (fun x => if x.id == o.id then o else x) = l := by
  intro l
  induction l with
  | nil => intro _ ho; cases ho
  | cons a t ih =>
    intro hnd ho
    rw [List.map_cons, List.nodup_cons] at hnd
    rcases List.mem_cons.mp ho with h1 | h2
    · rw [List.map_cons]
      rw [h1]
      have hhead : (if a.id == a.id then a else a) = a := by simp
      rw [hhead]
      have htail : t.map (fun x => if x.id == a.id then a else x) = t := by
        apply list_map_fix
        intro x hx
        have hne : x.id ≠ a.id := by
          intro he
          exact hnd.1 (he ▸ List.mem_map_of_mem Order.id hx)
        simp [hne]
      rw [htail]
    · rw [List.map_cons]
      have hne : a.id ≠ o.id := by
        intro he
        exact hnd.1 (he ▸ List.mem_map_of_mem Order.id h2)
      have hhead : (if a.id == o.id then o else a) = a := by simp [hne]
      rw [hhead, ih hnd.2 h2]

theorem findOrder_props (db : DB) (pk : Nat) (o : Order)
    (h : findOrder db pk = some o) : o ∈ db.orders ∧ o.id = pk := by
  unfold findOrder at h
  exact ⟨List.mem_of_find?_eq_some h, by simpa using List.find?_some h⟩

theorem updateOrderIn_found (db : DB) (pk : Nat) (o : Order)
    (hnd : (db.orders.map Order.id).Nodup)
    (h : findOrder db pk = some o) : updateOrderIn db o = db := by
  unfold updateOrderIn
  rw [map_replace_self o db.orders hnd (findOrder_props db pk o h).1]

/-! ## Claim theorems -/

/-- C1: `createOrder` on a non-empty cart returns 201, appends exactly one
order whose total is the sum of the prices of the cart lines and whose date is the
creation date, appends exactly one order item per cart line copying menu
item, quantity, unit price and line price verbatim, and empties the cart of that user; on an empty cart it returns 400 and leaves the database unchanged. No
third outcome exists, so no intermediate state is observable. -/
theorem C1_createOrder_atomic (db : DB) (userId today : Nat) :
    (userCart db userId = [] →
      (createOrder db userId today).1.code = 400 ∧
      (createOrder db userId today).2 = db) ∧
    (userCart db userId ≠ [] →
      (createOrder db userId today).1.code = 201 ∧
      (createOrder db userId today).2.orders =
        db.orders ++ [{ id := db.nextOrderId, user := userId, delivery_crew := none,
                        status := false,
                        total := ((userCart db userId).map CartLine.price).sum,
                        date := today }] ∧
      (∃ items : List OrderItem,
        (createOrder db userId today).2.orderItems = db.orderItems ++ items ∧
        items.length = (userCart db userId).length ∧
        items.map (fun it => (it.menuitem, it.quantity, it.unit_price, it.price)) =
          (userCart db userId).map (fun c => (c.menuitem, c.quantity, c.unit_price, c.price)) ∧
        ∀ it ∈ items, it.order = db.nextOrderId) ∧
      userCart (createOrder db userId today).2 userId = [] ∧
      (createOrder db userId today).2.carts = db.carts.filter (fun c => c.user != userId) ∧
      (createOrder db userId today).2.users = db.users ∧
      (createOrder db userId today).2.menuItems = db.menuItems) := by
  constructor
  · intro h
    simp [createOrder, h]
  · intro h
    have hne : (userCart db userId).isEmpty = false := by
      simp [List.isEmpty_iff, h]
    refine ⟨?_, ?_, ?_, ?_, ?_, ?_, ?_⟩
    · simp [createOrder, hne]
    · simp [createOrder, hne]
    · refine ⟨mkOrderItems db.nextOrderId db.nextOrderItemId (userCart db userId),
        ?_, mkOrderItems_length _ _ _, mkOrderItems_fields _ _ _,
        mkOrderItems_parent _ _ _⟩
      simp [createOrder, hne]
    · simp only [createOrder, hne]
      simp only [Bool.false_eq_true, if_false]
      exact filter_user_of_filter_ne db.carts userId
    · simp [createOrder, hne]
    · simp [createOrder, hne]
    · simp [createOrder, hne]

/-- Instantiation of `C1_createOrder_atomic` on the concrete database
`dbA`, whose user 1 has a one-line cart. -/
theorem C1_createOrder_atomic_witness :
    (createOrder dbA 1 5).1.code = 201 ∧ userCart (createOrder dbA 1 5).2 1 = [] := by
  have h := (C1_createOrder_atomic dbA 1 5).2 (by decide)
  exact ⟨h.1, h.2.2.2.1⟩

/-- C8: `clearCart` always returns 200, deletes exactly the cart lines of the caller
(lines of other users are untouched), leaves the cart of the caller empty,
and is idempotent: a second call also returns 200 and changes nothing. -/
theorem C8_clearCart_idempotent (db : DB) (u : Nat) :
    (clearCart db u).1.code = 200 ∧
    (clearCart db u).2.carts = db.carts.filter (fun c => c.user != u) ∧
    userCart (clearCart db u).2 u = [] ∧
    (∀ v, v ≠ u → userCart (clearCart db u).2 v = userCart db v) ∧
    (clearCart (clearCart db u).2 u).1.code = 200 ∧
    (clearCart (clearCart db u).2 u).2 = (clearCart db u).2 := by
  refine ⟨rfl, rfl, ?_, ?_, rfl, ?_⟩
  · exact filter_user_of_filter_ne db.carts u
  · intro v hv
    exact filter_user_of_ne db.carts u v hv
  · simp only [clearCart]
    rw [filter_ne_user_idem]

/-- Instantiation of `C8_clearCart_idempotent` on `dbA` and user 1. -/
theorem C8_clearCart_idempotent_witness :
    userCart (clearCart dbA 1).2 1 = [] ∧ userCart (clearCart dbA 1).2 2 = userCart dbA 2 := by
  have h := C8_clearCart_idempotent dbA 1
  exact ⟨h.2.2.1, h.2.2.2.1 2 (by decide)⟩

/-- C9: `addToCart` returns 404 and changes nothing when the menu item id
does not exist; otherwise it returns 201 with a freshly created cart line
whose unit price is the current price of the menu item and whose line price is
quantity times that unit price, and the line is appended to the cart of the user
whatever its prior contents — repeated adds each create an additional line,
never merging. -/
theorem C9_addToCart_spec (db : DB) (userId menuItemId : Nat) (q : Int) :
    (findMenuItem db menuItemId = none →
      addToCart db userId menuItemId q =
        ({ code := 404, detail := "Menu item not found" }, none, db)) ∧
    (∀ item, findMenuItem db menuItemId = some item →
      (addToCart db userId menuItemId q).1.code = 201 ∧
      (addToCart db userId menuItemId q).2.1 =
        some { id := db.nextCartId, user := userId, menuitem := item.id, quantity := q,
               unit_price := item.price, price := (q : Rat) * item.price } ∧
      (addToCart db userId menuItemId q).2.2.carts =
        db.carts ++ [{ id := db.nextCartId, user := userId, menuitem := item.id,
                       quantity := q, unit_price := item.price,
                       price := (q : Rat) * item.price }] ∧
      userCart (addToCart db userId menuItemId q).2.2 userId =
        userCart db userId ++
          [{ id := db.nextCartId, user := userId, menuitem := item.id, quantity := q,
             unit_price := item.price, price := (q : Rat) * item.price }]) := by
  constructor
  · intro h
    simp [addToCart, h]
  · intro item h
    refine ⟨?_, ?_, ?_, ?_⟩
    · simp [addToCart, h]
    · simp [addToCart, h]
    · simp [addToCart, h]
    · simp [addToCart, h, userCart, List.filter_append]

/-- Instantiation of `C9_addToCart_spec`: adding menu item 1 (price 10) with
quantity 3 to `dbA` creates a line with unit price 10 and price 30, and a
missing id yields 404. -/
theorem C9_addToCart_spec_witness :
    (addToCart dbA 1 1 3).1.code = 201 ∧
    (addToCart dbA 1 1 3).2.1 =
      some { id := 2, user := 1, menuitem := 1, quantity := 3,
             unit_price := 10, price := 30 } ∧
    addToCart dbA 1 99 3 = ({ code := 404, detail := "Menu item not found" }, none, dbA) := by
  have h1 := (C9_addToCart_spec dbA 1 1 3).2 mItemA (by decide)
  have h2 := (C9_addToCart_spec dbA 1 99 3).1 (by decide)
  refine ⟨h1.1, ?_, h2⟩
  rw [h1.2.1]
  norm_num [dbA, mItemA]

/-- C2 refutation: an unauthenticated caller (`AnonymousUser`) passes the
permission gate of the menu-item list endpoint (whose GET permission list is
empty) and of the order list endpoint (which falls through to `IsCustomer`,
satisfied by a group-less anonymous user), so not every endpoint rejects
unauthenticated callers. -/
theorem C2_counterexample :
    anonymousUser.is_authenticated = false ∧
    allowed (menuItemPermissions Method.get) anonymousUser = true ∧
    allowed (orderPermissions anonymousUser Method.get) anonymousUser = true := by
  decide

/-- C2 (amended): the cart and group-roster endpoints (which list an
authentication permission) and the category endpoint and order PUT/DELETE and
menu-item writes (whose role checks fail on an anonymous user) reject an
unauthenticated caller, but menu-item GET carries no permission check at all
and the order GET/POST gates admit an unauthenticated caller through
`IsCustomer`; order PATCH for a group-less caller falls through to the
authentication check and rejects. -/
theorem C2_unauthenticated_gates (u : User)
    (hauth : u.is_authenticated = false)
    (hg : u.groups = [])
    (hstaff : u.is_staff = false) :
    allowed (menuItemPermissions Method.get) u = true ∧
    allowed (orderPermissions u Method.get) u = true ∧
    allowed (orderPermissions u Method.post) u = true ∧
    allowed (menuItemPermissions Method.post) u = false ∧
    allowed categoryPermissions u = false ∧
    allowed cartPermissions u = false ∧
    allowed groupRosterPermissions u = false ∧
    allowed (orderPermissions u Method.put) u = false ∧
    allowed (orderPermissions u Method.patch) u = false := by
  simp [allowed, menuItemPermissions, cartPermissions, categoryPermissions,
    groupRosterPermissions, orderPermissions, permCheck, isManager,
    isDeliveryCrewMember, hauth, hg, hstaff]

/-- Instantiation of `C2_unauthenticated_gates` on `AnonymousUser`. -/
theorem C2_unauthenticated_gates_witness :
    allowed (menuItemPermissions Method.get) anonymousUser = true ∧
    allowed cartPermissions anonymousUser = false := by
  have h := C2_unauthenticated_gates anonymousUser rfl rfl rfl
  exact ⟨h.1, h.2.2.2.2.2.1⟩

/-- C3: for a Manager caller on an existing order, with no (truthy)
`delivery_crew` in the request, `partial_update` returns 200 whatever the
supplied `status` is; it sets the status only for the literal values 0 and 1
(`bool`-coerced), silently ignores any other supplied value (the order is
saved unchanged), and succeeds with the order unchanged when no field was
supplied. -/
theorem C3_manager_status_update (db : DB) (caller : User) (pk : Nat) (p : PatchData)
    (o : Order)
    (hm : isManager caller = true)
    (hfind : findOrder db pk = some o)
    (hdc : truthyId p.delivery_crew = false)
    (hnd : (db.orders.map Order.id).Nodup) :
    (patchOrder db caller pk p).1.code = 200 ∧
    (p.status = none → (patchOrder db caller pk p).2 = db) ∧
    (∀ v : Int, p.status = some v → v ≠ 0 → v ≠ 1 → (patchOrder db caller pk p).2 = db) ∧
    (p.status = some 0 →
      (patchOrder db caller pk p).2 = updateOrderIn db { o with status := false }) ∧
    (p.status = some 1 →
      (patchOrder db caller pk p).2 = updateOrderIn db { o with status := true }) := by
  have hupd := updateOrderIn_found db pk o hnd hfind
  refine ⟨?_, ?_, ?_, ?_, ?_⟩
  · cases hps : p.status with
    | none => simp [patchOrder, hfind, hm, managerBranch, hdc, hps]
    | some v => simp [patchOrder, hfind, hm, managerBranch, hdc, hps]
  · intro h
    simp only [patchOrder, hfind, hm, if_true, managerBranch, hdc,
      Bool.false_eq_true, if_false, h]
    exact hupd
  · intro v hv h0 h1
    have hcond : (v == 0 || v == 1) = false := by simp [h0, h1]
    simp only [patchOrder, hfind, hm, if_true, managerBranch, hdc,
      Bool.false_eq_true, if_false, hv, hcond]
    exact hupd
  · intro h
    simp [patchOrder, hfind, hm, managerBranch, hdc, h]
  · intro h
    simp [patchOrder, hfind, hm, managerBranch, hdc, h]

/-- Instantiation of `C3_manager_status_update`: a Manager PATCH carrying
`status=2` on order 1 of `dbA` returns 200 and leaves the database
unchanged. -/
theorem C3_manager_status_update_witness :
    (patchOrder dbA mgrA 1 { delivery_crew := none, status := some 2 }).1.code = 200 ∧
    (patchOrder dbA mgrA 1 { delivery_crew := none, status := some 2 }).2 = dbA := by
  have h := C3_manager_status_update dbA mgrA 1 { delivery_crew := none, status := some 2 }
    orderA (by decide) rfl rfl (by decide)
  exact ⟨h.1, h.2.2.1 2 rfl (by decide) (by decide)⟩

/-- C4: for an existing order, a Delivery-crew caller (not Manager) whose
PATCH omits `status` gets 403 with the database unchanged; when `status` is
supplied, only the status of that order is set — to the boolean coercion of the
value — and 200 is returned; a caller in neither group gets 403 with the
database unchanged. -/
theorem C4_crew_patch (db : DB) (caller : User) (pk : Nat) (p : PatchData) (o : Order)
    (hm : isManager caller = false)
    (hfind : findOrder db pk = some o) :
    (isDeliveryCrewMember caller = true →
      ((p.status = none →
        (patchOrder db caller pk p).1.code = 403 ∧ (patchOrder db caller pk p).2 = db) ∧
       (∀ v : Int, p.status = some v →
        (patchOrder db caller pk p).1.code = 200 ∧
        (patchOrder db caller pk p).2 = updateOrderIn db { o with status := v != 0 }))) ∧
    (isDeliveryCrewMember caller = false →
      (patchOrder db caller pk p).1.code = 403 ∧ (patchOrder db caller pk p).2 = db) := by
  constructor
  · intro hd
    constructor
    · intro h
      simp [patchOrder, hfind, hm, hd, crewBranch, h]
    · intro v hv
      simp [patchOrder, hfind, hm, hd, crewBranch, hv]
  · intro hd
    simp [patchOrder, hfind, hm, hd]

/-- Instantiation of `C4_crew_patch`: a crew PATCH of order 1 in `dbA`
without a `status` field returns 403 and changes nothing; a customer PATCH
returns 403. -/
theorem C4_crew_patch_witness :
    (patchOrder dbA crewA 1 { delivery_crew := none, status := none }).1.code = 403 ∧
    (patchOrder dbA crewA 1 { delivery_crew := none, status := none }).2 = dbA ∧
    (patchOrder dbA custA 1 { delivery_crew := none, status := none }).1.code = 403 := by
  have h1 := (C4_crew_patch dbA crewA 1 { delivery_crew := none, status := none }
    orderA (by decide) rfl).1 (by decide) |>.1 rfl
  have h2 := (C4_crew_patch dbA custA 1 { delivery_crew := none, status := none }
    orderA (by decide) rfl).2 (by decide)
  exact ⟨h1.1, h1.2, h2.1⟩

/-- C5 refutation: a Manager PATCH on order 1 of `dbA` supplying
`delivery_crew = 0` — an id that resolves to no user — does not fail with
404: Python truthiness skips the lookup for the falsy id 0, the order is
saved and 200 is returned. -/
theorem C5_counterexample :
    findUser dbA 0 = none ∧
    (patchOrder dbA mgrA 1 { delivery_crew := some 0, status := none }).1.code = 200 ∧
    (patchOrder dbA mgrA 1 { delivery_crew := some 0, status := none }).2 = dbA := by
  refine ⟨rfl, rfl, ?_⟩
  exact updateOrderIn_found dbA 1 orderA (by decide) rfl

/-- C5 (amended): `partial_update` fails with 404 for every order id that
does not exist, leaving the database unchanged; for a Manager caller,
supplying any nonzero `delivery_crew` user id that resolves to no user fails
with 404 leaving the database unchanged; a supplied id of 0 is falsy and is
treated as if the field were absent, so the operation succeeds with 200. -/
theorem C5_patch_notfound (db : DB) (caller : User) (pk : Nat) (p : PatchData) :
    (findOrder db pk = none →
      (patchOrder db caller pk p).1.code = 404 ∧ (patchOrder db caller pk p).2 = db) ∧
    (∀ o n, isManager caller = true → findOrder db pk = some o →
      p.delivery_crew = some n → n ≠ 0 → findUser db n = none →
      (patchOrder db caller pk p).1.code = 404 ∧ (patchOrder db caller pk p).2 = db) ∧
    (∀ o, isManager caller = true → findOrder db pk = some o →
      p.delivery_crew = some 0 → p.status = none →
      (db.orders.map Order.id).Nodup →
      (patchOrder db caller pk p).1.code = 200 ∧ (patchOrder db caller pk p).2 = db) := by
  refine ⟨?_, ?_, ?_⟩
  · intro h
    simp [patchOrder, h]
  · intro o n hm hfind hdc hne hfu
    have ht : truthyId (some n) = true := by
      simp [truthyId, hne]
    simp [patchOrder, hfind, hm, managerBranch, ht, hdc, hfu]
  · intro o hm hfind hdc hst hnd
    have ht : truthyId p.delivery_crew = false := by
      simp [truthyId, hdc]
    constructor
    · simp [patchOrder, hfind, hm, managerBranch, ht, hst]
    · simp only [patchOrder, hfind, hm, if_true, managerBranch, ht,
        Bool.false_eq_true, if_false, hst]
      exact updateOrderIn_found db pk o hnd hfind

/-- Instantiation of `C5_patch_notfound`: order 99 does not exist in `dbA`
(404, unchanged), and a Manager PATCH naming the nonexistent user 77 as
delivery crew returns 404 and changes nothing. -/
theorem C5_patch_notfound_witness :
    (patchOrder dbA mgrA 99 { delivery_crew := none, status := none }).1.code = 404 ∧
    (patchOrder dbA mgrA 1 { delivery_crew := some 77, status := none }).1.code = 404 ∧
    (patchOrder dbA mgrA 1 { delivery_crew := some 77, status := none }).2 = dbA := by
  have h1 := (C5_patch_notfound dbA mgrA 99
    { delivery_crew := none, status := none }).1 rfl
  have h2 := (C5_patch_notfound dbA mgrA 1
    { delivery_crew := some 77, status := none }).2.1 orderA 77 (by decide) rfl rfl
    (by decide) rfl
  exact ⟨h1.1, h2.1, h2.2⟩

/-- C6: `get_queryset` scopes by group membership alone — a Manager-group
member gets all orders, else a Delivery-crew-group member gets the orders
assigned to them, and every other user gets the orders they own; the
`is_staff` flag never changes the result, even though `IsAdminOrManager`
grants an admin-flagged user Manager-level endpoint access. -/
theorem C6_listOrders_scoping (db : DB) (u : User) :
    (isManager u = true → listOrders db u = db.orders) ∧
    (isManager u = false → isDeliveryCrewMember u = true →
      listOrders db u = db.orders.filter (fun o => o.delivery_crew == some u.id)) ∧
    (isManager u = false → isDeliveryCrewMember u = false →
      listOrders db u = db.orders.filter (fun o => o.user == u.id)) ∧
    (∀ b : Bool, listOrders db { u with is_staff := b } = listOrders db u) ∧
    (u.is_staff = true → permCheck Perm.isAdminOrManagerP u = true) := by
  refine ⟨?_, ?_, ?_, ?_, ?_⟩
  · intro h
    simp [listOrders, h]
  · intro h1 h2
    simp [listOrders, h1, h2]
  · intro h1 h2
    simp [listOrders, h1, h2]
  · intro b
    rfl
  · intro h
    simp [permCheck, h]

/-- Instantiation of `C6_listOrders_scoping`: the admin-flagged, group-less
user `staffA` passes the `IsAdminOrManager` gate yet is scoped to own orders
and so sees no order of `dbA`. -/
theorem C6_listOrders_scoping_witness :
    permCheck Perm.isAdminOrManagerP staffA = true ∧ listOrders dbA staffA = [] := by
  have h := C6_listOrders_scoping dbA staffA
  refine ⟨h.2.2.2.2 rfl, ?_⟩
  rw [h.2.2.1 (by decide) (by decide)]
  decide

/-- C7: for a user in both the Manager and the Delivery crew groups, every
decision point takes the Manager branch: `get_permissions` yields the
Manager permission list for GET, PATCH and POST, `get_queryset` yields all
orders, and `partial_update` on an existing order runs the Manager branch. -/
theorem C7_manager_precedence (db : DB) (u : User) (pk : Nat) (p : PatchData) (o : Order)
    (hm : isManager u = true) (_hd : isDeliveryCrewMember u = true) :
    orderPermissions u Method.get = [Perm.isAuthenticatedP] ∧
    orderPermissions u Method.patch = [Perm.isAuthenticatedP] ∧
    orderPermissions u Method.post = [Perm.isAuthenticatedP] ∧
    listOrders db u = db.orders ∧
    (findOrder db pk = some o → patchOrder db u pk p = managerBranch db o p) := by
  refine ⟨?_, ?_, ?_, ?_, ?_⟩
  · simp [orderPermissions, hm]
  · simp [orderPermissions, hm]
  · simp [orderPermissions, hm]
  · simp [listOrders, hm]
  · intro hfind
    simp [patchOrder, hfind, hm]

/-- Instantiation of `C7_manager_precedence` on the dual-group user
`bothA`. -/
theorem C7_manager_precedence_witness :
    orderPermissions bothA Method.patch = [Perm.isAuthenticatedP] ∧
    listOrders dbA bothA = dbA.orders := by
  have h := C7_manager_precedence dbA bothA 1
    { delivery_crew := none, status := none } orderA (by decide) (by decide)
  exact ⟨h.2.1, h.2.2.2.1⟩

/-- C10: a Delivery-crew caller (not Manager) PATCHing any existing order
with a `status` field succeeds with 200 and sets the status of that order, even
when the order is assigned to a different crew member or to no one — the
handler never compares `order.delivery_crew` with the caller. -/
theorem C10_crew_any_assignment (db : DB) (caller : User) (pk : Nat) (p : PatchData)
    (o : Order) (v : Int)
    (hm : isManager caller = false) (hd : isDeliveryCrewMember caller = true)
    (hfind : findOrder db pk = some o)
    (_hnotmine : o.delivery_crew ≠ some caller.id)
    (hs : p.status = some v) :
    (patchOrder db caller pk p).1.code = 200 ∧
    (patchOrder db caller pk p).2 = updateOrderIn db { o with status := v != 0 } := by
  simp [patchOrder, hfind, hm, hd, crewBranch, hs]

/-- Instantiation of `C10_crew_any_assignment`: crew user 3 sets the status
of order 2 of `dbB`, which is assigned to crew user 2. -/
theorem C10_crew_any_assignment_witness :
    (patchOrder dbB crewA 2 { delivery_crew := none, status := some 1 }).1.code = 200 := by
  have h := C10_crew_any_assignment dbB crewA 2
    { delivery_crew := none, status := some 1 } orderB 1 (by decide) (by decide) rfl
    (by decide) rfl
  exact h.1

end LittleLemon
